import Mathlib

/-! # workflow-goclient: activity worker and workflow client

Shallow embedding of the activity worker coordination loop (package
`activity`, file modelled from the current worker source whose
`CompleteCancelledActivity` calls match the four-argument
`workflow.Client` interface) and of the workflow HTTP client wrapper
(`workflow/client.go`) of the 3DSIM workflow-goclient repository,
together with proofs of behavioural properties of its specification.

The concurrency of the worker is embedded by making the scheduling
explicit: a `Schedule` records which events the three concurrent loops
(heartbeat loop, progress forwarder, unit of work) observe and which of
the racing signals the coordinator's select statements see first.  Each
loop of the source becomes a structural recursion over its event list,
producing the list of calls it issues on the workflow client.  Durations
(`time.Duration`) are `Int` nanosecond counts. -/

namespace WorkflowGoclient

/-- Fields of `models.ActivityError` as used by `client.go`
(`Reason *string`, `Details string`); a Go string pointer is an
`Option String`. -/
structure ActivityError where
  reason : Option String
  details : String
deriving DecidableEq

/-- Fields of `models.Activity` as used by `client.go`
(`ID *string`, `Status *string`, `Result string`,
`PercentComplete int32`, `Error *models.ActivityError`). -/
structure Activity where
  id : Option String
  status : Option String
  result : String
  percentComplete : Int
  error : Option ActivityError
deriving DecidableEq

/-- Fields of `models.Heartbeat` as used by `client.go` and the worker
(`TaskToken *string`, `ActivityID *string`, `Details string`,
`Cancelled bool`). -/
structure Heartbeat where
  taskToken : Option String
  activityID : Option String
  details : String
  cancelled : Bool
deriving DecidableEq

/-- Fields of `models.PostWorkflow` as used by `client.go`
(`WorkflowType`, `EntityID *string`, used only in log statements). -/
structure PostWorkflow where
  workflowType : String
  entityID : Option String
deriving DecidableEq

/-- Payload of `models.Signal`; its contents are never inspected by
`client.go`, which only forwards the pointer. -/
structure Signal where
  payload : String
deriving DecidableEq

/-- Payload of `models.Workflow`; its contents are never inspected by
`client.go`, which only forwards the parsed response. -/
structure WorkflowModel where
  payload : String
deriving DecidableEq

-- Status constants of the generated `models` package (outside `src`);
-- the claims never inspect their values.
def ActivityStatusRunning : String := "running"

def ActivityStatusCompleted : String := "completed"

def ActivityStatusCancelled : String := "cancelled"

def ActivityStatusFailed : String := "failed"

/-- Go `int32(n)` conversion used by `UpdateActivityPercentComplete`. -/
def toInt32 (n : Int) : Int :=
  (n + 2147483648) % 4294967296 - 2147483648

/-- Constant `defaultHeartbeatInterval = 1 * time.Minute` (nanoseconds). -/
def defaultHeartbeatInterval : Int := 60000000000

/-- Constant `defaultCancellationTimeout = 1 * time.Minute` (nanoseconds). -/
def defaultCancellationTimeout : Int := 60000000000

/-- Constant `timeoutErrorMessage` of the worker source. -/
def timeoutErrorMessage : String := "Work cancelled after timeout"

/-- Constant `completedMessage` of the worker source. -/
def completedMessage : String := "Work completed successfully"

/-- Constant `cancelledReason` of the worker source. -/
def cancelledReason : String := "Cancel requested"

/-- Configuration fields of `activity.Worker`; the `WorkflowClient` and
`Logger` fields are abstracted into the lists of calls the loops emit. -/
structure Worker where
  heartbeatInterval : Int
  cancellationTimeout : Int
deriving DecidableEq

/-- One call on the `workflow.Client` interface issued by the worker,
with the arguments the worker passes.  The type `α` is the Go
`interface\x7b\x7d` result value handed to `CompleteSuccessfulActivity`. -/
inductive ClientCall (α : Type) where
  | heartbeatActivityWithToken (taskToken activityID details : String)
  | updateActivityPercentComplete (workflowID activityID : String) (percentComplete : Int)
  | completeSuccessfulActivity (workflowID activityID : String) (result : α)
  | completeFailedActivity (workflowID activityID reason details : String)
  | completeCancelledActivity (workflowID activityID reason details : String)

/-- Whether a client call is one of the three terminal outcome reports. -/
def ClientCall.isTerminal {α : Type} : ClientCall α → Bool
  | ClientCall.completeSuccessfulActivity _ _ _ => true
  | ClientCall.completeFailedActivity _ _ _ _ => true
  | ClientCall.completeCancelledActivity _ _ _ _ => true
  | _ => false

/-- One iteration event of the heartbeat loop's select: either the ticker
fires (and `HeartbeatActivityWithToken` returns response `resp` and
transport error `transportErr`), or the stop channel is signalled. -/
inductive HBEvent where
  | tick (resp : Option Heartbeat) (transportErr : Option String)
  | stopSignal
deriving DecidableEq

/-- Strip the transport error from a heartbeat event (used to state that
transport errors are only logged). -/
def HBEvent.eraseErr : HBEvent → HBEvent
  | HBEvent.tick resp _ => HBEvent.tick resp none
  | HBEvent.stopSignal => HBEvent.stopSignal

/-- The detail string `fmt.Sprintf("Heartbeat for activity %v", activityID)`. -/
def heartbeatDetails (activityID : String) : String :=
  "Heartbeat for activity " ++ activityID

/-- The condition `hb != nil && hb.Cancelled` under which one heartbeat
tick invokes `cancelFunc`. -/
def tickTriggersCancel : Option Heartbeat → Bool
  | some hb => hb.cancelled
  | none => false

/-- Result of running the heartbeat loop over a list of events: the
client calls it issued, how many times it invoked `cancelFunc`, and
whether it returned (only the stop signal makes it return). -/
structure HeartbeatRun (α : Type) where
  calls : List (ClientCall α)
  cancelCount : Nat
  stopped : Bool

/-- The loop body of `Worker.heartbeat`: on each tick it calls
`HeartbeatActivityWithToken`, logs a transport error if any, and invokes
`cancelFunc` when the returned record is non-nil with `Cancelled` set;
on the stop signal it returns, processing nothing further. -/
def Worker.heartbeat (α : Type) (taskToken activityID : String) :
    List HBEvent → HeartbeatRun α
  | [] => { calls := [], cancelCount := 0, stopped := false }
  | HBEvent.stopSignal :: _ => { calls := [], cancelCount := 0, stopped := true }
  | HBEvent.tick resp _ :: rest =>
    let r := Worker.heartbeat α taskToken activityID rest
    { calls := ClientCall.heartbeatActivityWithToken taskToken activityID
          (heartbeatDetails activityID) :: r.calls,
      cancelCount := (if tickTriggersCancel resp then 1 else 0) + r.cancelCount,
      stopped := r.stopped }

/-- The `for percentComplete := range pc` loop of
`Worker.updatePercentComplete` with the mutable `lastPercentComplete`
made an explicit argument: a received value differing from the last
forwarded one is forwarded via `UpdateActivityPercentComplete` and
becomes the new last value; an equal one is dropped. -/
def Worker.updatePercentCompleteFrom (α : Type) (workflowID activityID : String)
    (lastPercentComplete : Int) : List Int → List (ClientCall α)
  | [] => []
  | percentComplete :: rest =>
    if percentComplete ≠ lastPercentComplete then
      ClientCall.updateActivityPercentComplete workflowID activityID percentComplete
        :: Worker.updatePercentCompleteFrom α workflowID activityID percentComplete rest
    else
      Worker.updatePercentCompleteFrom α workflowID activityID lastPercentComplete rest

/-- `Worker.updatePercentComplete`: the forwarder starts with
`lastPercentComplete := -1`. -/
def Worker.updatePercentComplete (α : Type) (workflowID activityID : String)
    (pc : List Int) : List (ClientCall α) :=
  Worker.updatePercentCompleteFrom α workflowID activityID (-1) pc

/-- Which of the three racing signals the select of
`Worker.handleCancellation` sees first after the child context is
cancelled: the work function's error, its success value, or the
`time.After(cancellationTimeout)` channel. -/
inductive CancelEvent (α : Type) where
  | workErr (msg : String)
  | workOk (result : α)
  | timeout

/-- Which of the three racing signals the select of `Worker.Do` sees
first: the child context done channel, the work function's error, or
its success value.  Go errors are represented by their `Error()`
message. -/
inductive DoEvent (α : Type) where
  | ctxDone (cev : CancelEvent α)
  | workErr (msg : String)
  | workOk (result : α)

/-- The select of `Worker.handleCancellation`: each branch issues exactly
one `CompleteCancelledActivity` call with reason `cancelledReason` and a
branch-dependent detail string (the error's message, `completedMessage`,
or `timeoutErrorMessage`). -/
def Worker.handleCancellation {α : Type} (workflowID activityID : String) :
    CancelEvent α → List (ClientCall α)
  | CancelEvent.workErr msg =>
    [ClientCall.completeCancelledActivity workflowID activityID cancelledReason msg]
  | CancelEvent.workOk _ =>
    [ClientCall.completeCancelledActivity workflowID activityID cancelledReason completedMessage]
  | CancelEvent.timeout =>
    [ClientCall.completeCancelledActivity workflowID activityID cancelledReason timeoutErrorMessage]

/-- The select of `Worker.Do`: the context-done branch runs
`handleCancellation`, the error branch issues one
`CompleteFailedActivity` with the error's message and empty details, and
the result branch issues one `CompleteSuccessfulActivity` with the
result. -/
def Worker.terminalCalls {α : Type} (workflowID activityID : String) :
    DoEvent α → List (ClientCall α)
  | DoEvent.ctxDone cev => Worker.handleCancellation workflowID activityID cev
  | DoEvent.workErr msg =>
    [ClientCall.completeFailedActivity workflowID activityID msg ""]
  | DoEvent.workOk result =>
    [ClientCall.completeSuccessfulActivity workflowID activityID result]

/-- One schedule of a single `Worker.Do` invocation: the events observed
by the heartbeat loop, the progress values received by the forwarder,
and the coordinator's first-arrived signal. -/
structure Schedule (α : Type) where
  hbEvents : List HBEvent
  progress : List Int
  ev : DoEvent α

/-- All calls issued on the workflow client during one `Worker.Do`
invocation under a given schedule (grouped by emitting loop; the claims
only count and inspect calls, never their interleaving). -/
def Worker.Do {α : Type} (workflowID activityID taskToken : String)
    (s : Schedule α) : List (ClientCall α) :=
  (Worker.heartbeat α taskToken activityID s.hbEvents).calls
    ++ Worker.updatePercentComplete α workflowID activityID s.progress
    ++ Worker.terminalCalls workflowID activityID s.ev

/-- The effective cancellation timeout: `defaultCancellationTimeout`
unless `w.CancellationTimeout > 0`. -/
def Worker.effCancellationTimeout (w : Worker) : Int :=
  if 0 < w.cancellationTimeout then w.cancellationTimeout else defaultCancellationTimeout

/-- The effective heartbeat interval: `defaultHeartbeatInterval` unless
`w.HeartbeatInterval > 0`. -/
def Worker.effHeartbeatInterval (w : Worker) : Int :=
  if 0 < w.heartbeatInterval then w.heartbeatInterval else defaultHeartbeatInterval

/-- How the work function eventually returns: with an error message or
with a result value. -/
inductive WorkReturn (α : Type) where
  | ok (result : α)
  | err (msg : String)

/-- Timed refinement of `Worker.handleCancellation`.  `work` is `none`
when the work function never returns after cancellation, or
`some (t, r)` when it returns `r` at time `t` (nanoseconds after the
cancellation was observed).  The select races the work channels against
`time.After(cancellationTimeout)`, so the work branch wins exactly when
`t` is below the effective timeout; the second component is the time at
which the single `CompleteCancelledActivity` call is issued. -/
def Worker.handleCancellationTimed {α : Type} (w : Worker)
    (workflowID activityID : String) (work : Option (Int × WorkReturn α)) :
    List (ClientCall α) × Int :=
  match work with
  | none =>
    ([ClientCall.completeCancelledActivity workflowID activityID cancelledReason
        timeoutErrorMessage], w.effCancellationTimeout)
  | some (t, r) =>
    if t < w.effCancellationTimeout then
      match r with
      | WorkReturn.err msg =>
        ([ClientCall.completeCancelledActivity workflowID activityID cancelledReason msg], t)
      | WorkReturn.ok _ =>
        ([ClientCall.completeCancelledActivity workflowID activityID cancelledReason
            completedMessage], t)
    else
      ([ClientCall.completeCancelledActivity workflowID activityID cancelledReason
          timeoutErrorMessage], w.effCancellationTimeout)

/-- One HTTP request issued by the workflow client, identified by the
generated-client operation invoked and the parameters attached to it. -/
inductive ApiRequest where
  | startWorkflow (workflow : PostWorkflow)
  | getWorkflow (workflowID : String)
  | cancelWorkflow (workflowID : String)
  | signalWorkflow (workflowID : String) (signal : Signal)
  | updateActivity (workflowID activityID : String) (activity : Activity)
  | heartbeatActivity (workflowID activityID : String)
  | heartbeat (hb : Heartbeat)
deriving DecidableEq

/-- Environment of one `client` method call: what
`c.tokenFetcher.Token(c.audience)` returns, what the transport returns
for each generated-client operation, and `json.Marshal` on result values
of type `α`.  Go errors are represented by their messages. -/
structure ClientModel (α : Type) where
  token : Except String String
  startWorkflowResp : Except String String
  getWorkflowResp : Except String WorkflowModel
  cancelWorkflowResp : Except String Unit
  signalWorkflowResp : Except String Unit
  updateActivityResp : Except String Activity
  heartbeatResp : Except String Heartbeat
  heartbeatActivityResp : Except String Heartbeat
  marshal : α → Except String String

/-- Method `client.StartWorkflow`: fetch a token (returning `("", err)`
on failure), then issue the StartWorkflow request and return its
payload.  (The log statement dereferencing `workflow.EntityID` is not
modelled.) -/
def client.StartWorkflow {α : Type} (c : ClientModel α) (workflow : PostWorkflow) :
    List ApiRequest × String × Option String :=
  match c.token with
  | Except.error e => ([], "", some e)
  | Except.ok _ =>
    match c.startWorkflowResp with
    | Except.error e => ([ApiRequest.startWorkflow workflow], "", some e)
    | Except.ok payload => ([ApiRequest.startWorkflow workflow], payload, none)

/-- Method `client.Workflow`: fetch a token (returning `(nil, err)` on
failure), then issue the GetWorkflow request and return its payload. -/
def client.Workflow {α : Type} (c : ClientModel α) (workflowID : String) :
    List ApiRequest × Option WorkflowModel × Option String :=
  match c.token with
  | Except.error e => ([], none, some e)
  | Except.ok _ =>
    match c.getWorkflowResp with
    | Except.error e => ([ApiRequest.getWorkflow workflowID], none, some e)
    | Except.ok payload => ([ApiRequest.getWorkflow workflowID], some payload, none)

/-- Method `client.CancelWorkflow`: fetch a token (returning the error on
failure), then issue the CancelWorkflow request. -/
def client.CancelWorkflow {α : Type} (c : ClientModel α) (workflowID : String) :
    List ApiRequest × Option String :=
  match c.token with
  | Except.error e => ([], some e)
  | Except.ok _ =>
    match c.cancelWorkflowResp with
    | Except.error e => ([ApiRequest.cancelWorkflow workflowID], some e)
    | Except.ok _ => ([ApiRequest.cancelWorkflow workflowID], none)

/-- Method `client.SignalWorkflow`: fetch a token (returning the error on
failure), then issue the SignalWorkflow request. -/
def client.SignalWorkflow {α : Type} (c : ClientModel α) (workflowID : String)
    (signal : Signal) : List ApiRequest × Option String :=
  match c.token with
  | Except.error e => ([], some e)
  | Except.ok _ =>
    match c.signalWorkflowResp with
    | Except.error e => ([ApiRequest.signalWorkflow workflowID signal], some e)
    | Except.ok _ => ([ApiRequest.signalWorkflow workflowID signal], none)

/-- Method `client.UpdateActivity`: fetch a token (returning
`(nil, err)` on failure), then dereference `activity.ID` (the Go code
panics when it is nil, modelled as the outer `none`) and issue the
UpdateActivity request. -/
def client.UpdateActivity {α : Type} (c : ClientModel α) (workflowID : String)
    (activity : Activity) :
    Option (List ApiRequest × Option Activity × Option String) :=
  match c.token with
  | Except.error e => some ([], none, some e)
  | Except.ok _ =>
    match activity.id with
    | none => none
    | some activityID =>
      match c.updateActivityResp with
      | Except.error e =>
        some ([ApiRequest.updateActivity workflowID activityID activity], none, some e)
      | Except.ok payload =>
        some ([ApiRequest.updateActivity workflowID activityID activity], some payload, none)

/-- Method `client.UpdateActivityPercentComplete`: fetch a token
(returning `(nil, err)` on failure), build the running activity record
with `PercentComplete: int32(percentComplete)`, and issue the
UpdateActivity request. -/
def client.UpdateActivityPercentComplete {α : Type} (c : ClientModel α)
    (workflowID activityID : String) (percentComplete : Int) :
    List ApiRequest × Option Activity × Option String :=
  match c.token with
  | Except.error e => ([], none, some e)
  | Except.ok _ =>
    let updatedActivity : Activity :=
      { id := some activityID, status := some ActivityStatusRunning,
        result := "", percentComplete := toInt32 percentComplete, error := none }
    match c.updateActivityResp with
    | Except.error e =>
      ([ApiRequest.updateActivity workflowID activityID updatedActivity], none, some e)
    | Except.ok payload =>
      ([ApiRequest.updateActivity workflowID activityID updatedActivity], some payload, none)

/-- Method `client.CompleteSuccessfulActivity`: fetch a token (returning
`(nil, err)` on failure), marshal the result (returning `(nil, err)` on
failure, without any request), build the completed activity record with
`PercentComplete: 100` and the marshalled result, and issue the
UpdateActivity request. -/
def client.CompleteSuccessfulActivity {α : Type} (c : ClientModel α)
    (workflowID activityID : String) (result : α) :
    List ApiRequest × Option Activity × Option String :=
  match c.token with
  | Except.error e => ([], none, some e)
  | Except.ok _ =>
    match c.marshal result with
    | Except.error e => ([], none, some e)
    | Except.ok resultBytes =>
      let completedActivity : Activity :=
        { id := some activityID, status := some ActivityStatusCompleted,
          result := resultBytes, percentComplete := 100, error := none }
      match c.updateActivityResp with
      | Except.error e =>
        ([ApiRequest.updateActivity workflowID activityID completedActivity], none, some e)
      | Except.ok payload =>
        ([ApiRequest.updateActivity workflowID activityID completedActivity], some payload, none)

/-- Method `client.CompleteCancelledActivity`: fetch a token (returning
`(nil, err)` on failure), build the cancelled activity record carrying
reason and details, and issue the UpdateActivity request. -/
def client.CompleteCancelledActivity {α : Type} (c : ClientModel α)
    (workflowID activityID reason details : String) :
    List ApiRequest × Option Activity × Option String :=
  match c.token with
  | Except.error e => ([], none, some e)
  | Except.ok _ =>
    let cancelledActivity : Activity :=
      { id := some activityID, status := some ActivityStatusCancelled,
        result := "", percentComplete := 0,
        error := some { reason := some reason, details := details } }
    match c.updateActivityResp with
    | Except.error e =>
      ([ApiRequest.updateActivity workflowID activityID cancelledActivity], none, some e)
    | Except.ok payload =>
      ([ApiRequest.updateActivity workflowID activityID cancelledActivity], some payload, none)

/-- Method `client.CompleteFailedActivity`: fetch a token (returning
`(nil, err)` on failure), build the failed activity record carrying
reason and details, and issue the UpdateActivity request. -/
def client.CompleteFailedActivity {α : Type} (c : ClientModel α)
    (workflowID activityID reason details : String) :
    List ApiRequest × Option Activity × Option String :=
  match c.token with
  | Except.error e => ([], none, some e)
  | Except.ok _ =>
    let failedActivity : Activity :=
      { id := some activityID, status := some ActivityStatusFailed,
        result := "", percentComplete := 0,
        error := some { reason := some reason, details := details } }
    match c.updateActivityResp with
    | Except.error e =>
      ([ApiRequest.updateActivity workflowID activityID failedActivity], none, some e)
    | Except.ok payload =>
      ([ApiRequest.updateActivity workflowID activityID failedActivity], some payload, none)

/-- Method `client.HeartbeatActivity`: fetch a token (returning
`(nil, err)` on failure), then issue the HeartbeatActivity request. -/
def client.HeartbeatActivity {α : Type} (c : ClientModel α)
    (workflowID activityID : String) :
    List ApiRequest × Option Heartbeat × Option String :=
  match c.token with
  | Except.error e => ([], none, some e)
  | Except.ok _ =>
    match c.heartbeatActivityResp with
    | Except.error e => ([ApiRequest.heartbeatActivity workflowID activityID], none, some e)
    | Except.ok payload => ([ApiRequest.heartbeatActivity workflowID activityID], some payload, none)

/-- Method `client.HeartbeatActivityWithToken`: fetch a token (returning
`(nil, err)` on failure), build the heartbeat record with
`Cancelled: false`, and issue the Heartbeat request. -/
def client.HeartbeatActivityWithToken {α : Type} (c : ClientModel α)
    (taskToken activityID details : String) :
    List ApiRequest × Option Heartbeat × Option String :=
  match c.token with
  | Except.error e => ([], none, some e)
  | Except.ok _ =>
    let hb : Heartbeat :=
      { taskToken := some taskToken, activityID := some activityID,
        details := details, cancelled := false }
    match c.heartbeatResp with
    | Except.error e => ([ApiRequest.heartbeat hb], none, some e)
    | Except.ok payload => ([ApiRequest.heartbeat hb], some payload, none)

/-- The heartbeat loop never issues a terminal outcome report. -/
theorem heartbeat_filter_isTerminal (α : Type) (taskToken activityID : String) :
    ∀ evs : List HBEvent,
      ((Worker.heartbeat α taskToken activityID evs).calls).filter ClientCall.isTerminal = []
  | [] => rfl
  | HBEvent.stopSignal :: _ => rfl
  | HBEvent.tick resp e :: rest => by
    simp only [Worker.heartbeat, List.filter_cons]
    have h := heartbeat_filter_isTerminal α taskToken activityID rest
    simp [ClientCall.isTerminal, h]

/-- The progress forwarder never issues a terminal outcome report. -/
theorem updatePercentCompleteFrom_filter_isTerminal (α : Type)
    (workflowID activityID : String) :
    ∀ (l : List Int) (last : Int),
      (Worker.updatePercentCompleteFrom α workflowID activityID last l).filter
        ClientCall.isTerminal = []
  | [], _ => rfl
  | v :: rest, last => by
    by_cases h : v = last
    · simp only [Worker.updatePercentCompleteFrom, h]
      simp [updatePercentCompleteFrom_filter_isTerminal α workflowID activityID rest last]
    · simp only [Worker.updatePercentCompleteFrom, if_pos h]
      have ih := updatePercentCompleteFrom_filter_isTerminal α workflowID activityID rest v
      simp [ClientCall.isTerminal, h, ih]

/-- The coordinator's terminal branch issues exactly one report, and that
report is terminal. -/
theorem terminalCalls_filter_isTerminal {α : Type} (workflowID activityID : String) :
    ∀ ev : DoEvent α,
      (Worker.terminalCalls workflowID activityID ev).filter ClientCall.isTerminal
        = Worker.terminalCalls workflowID activityID ev
      ∧ (Worker.terminalCalls workflowID activityID ev).length = 1 := by
  intro ev
  cases ev with
  | ctxDone cev =>
    cases cev <;>
      simp [Worker.terminalCalls, Worker.handleCancellation, ClientCall.isTerminal]
  | workErr msg => simp [Worker.terminalCalls, ClientCall.isTerminal]
  | workOk result => simp [Worker.terminalCalls, ClientCall.isTerminal]

/-- The terminal reports of a `Do` trace are exactly those of its
coordinator branch. -/
theorem do_filter_isTerminal {α : Type} (workflowID activityID taskToken : String)
    (s : Schedule α) :
    (Worker.Do workflowID activityID taskToken s).filter ClientCall.isTerminal
      = Worker.terminalCalls workflowID activityID s.ev := by
  simp only [Worker.Do, List.filter_append,
    heartbeat_filter_isTerminal α taskToken activityID s.hbEvents,
    Worker.updatePercentComplete,
    updatePercentCompleteFrom_filter_isTerminal α workflowID activityID s.progress (-1),
    (terminalCalls_filter_isTerminal workflowID activityID s.ev).1]
  simp

/-- C1: every invocation of `Worker.Do` issues exactly one terminal
outcome report (one `CompleteSuccessfulActivity`, `CompleteFailedActivity`
or `CompleteCancelledActivity` call) — never zero, never more than one —
whichever of cancellation, natural completion or the grace timeout
occurs first in the schedule. -/
theorem claim_C1 {α : Type} (workflowID activityID taskToken : String)
    (s : Schedule α) :
    ((Worker.Do workflowID activityID taskToken s).filter ClientCall.isTerminal).length = 1 := by
  rw [do_filter_isTerminal]
  exact (terminalCalls_filter_isTerminal workflowID activityID s.ev).2

/-- C2: when the child context is done and the work function then returns
with a nil error, the single terminal report is a cancellation whose
reason is the fixed cancel-requested string and whose detail is the fixed
work-completed-successfully message. -/
theorem claim_C2 {α : Type} (workflowID activityID taskToken : String)
    (hbEvents : List HBEvent) (progress : List Int) (result : α) :
    (Worker.Do workflowID activityID taskToken
        { hbEvents := hbEvents, progress := progress,
          ev := DoEvent.ctxDone (CancelEvent.workOk result) }).filter ClientCall.isTerminal
      = [ClientCall.completeCancelledActivity workflowID activityID
          "Cancel requested" "Work completed successfully"] := by
  rw [do_filter_isTerminal]
  rfl

/-- C3: when the work function returns a non-nil error before any
cancellation is observed, the single terminal report is a
`CompleteFailedActivity` call whose reason is the error's message and
whose details argument is the empty string; no success or cancellation
report is issued. -/
theorem claim_C3 {α : Type} (workflowID activityID taskToken : String)
    (hbEvents : List HBEvent) (progress : List Int) (msg : String) :
    (Worker.Do workflowID activityID taskToken
        { hbEvents := hbEvents, progress := progress,
          ev := (DoEvent.workErr msg : DoEvent α) }).filter ClientCall.isTerminal
      = [ClientCall.completeFailedActivity workflowID activityID msg ""] := by
  rw [do_filter_isTerminal]
  rfl

/-- C5: when the child context is done and the work function then returns
a non-nil error, the single terminal report is a cancellation (not a
failure) whose detail string is the error's message. -/
theorem claim_C5 {α : Type} (workflowID activityID taskToken : String)
    (hbEvents : List HBEvent) (progress : List Int) (msg : String) :
    (Worker.Do workflowID activityID taskToken
        { hbEvents := hbEvents, progress := progress,
          ev := (DoEvent.ctxDone (CancelEvent.workErr msg) : DoEvent α) }).filter
        ClientCall.isTerminal
      = [ClientCall.completeCancelledActivity workflowID activityID "Cancel requested" msg] := by
  rw [do_filter_isTerminal]
  rfl

/-- C4: when the work function returns with a nil error before any
cancellation is observed, the single terminal report is a
`CompleteSuccessfulActivity` call carrying the returned result; and the
activity record that call sends to the endpoint carries the marshalled
result with its percent-complete field set to 100. -/
theorem claim_C4 {α : Type} (workflowID activityID taskToken : String)
    (hbEvents : List HBEvent) (progress : List Int) (result : α)
    (c : ClientModel α) (tok resultBytes : String)
    (htok : c.token = Except.ok tok)
    (hmarshal : c.marshal result = Except.ok resultBytes) :
    (Worker.Do workflowID activityID taskToken
        { hbEvents := hbEvents, progress := progress,
          ev := DoEvent.workOk result }).filter ClientCall.isTerminal
      = [ClientCall.completeSuccessfulActivity workflowID activityID result]
    ∧ (client.CompleteSuccessfulActivity c workflowID activityID result).1
      = [ApiRequest.updateActivity workflowID activityID
          { id := some activityID, status := some ActivityStatusCompleted,
            result := resultBytes, percentComplete := 100, error := none }] := by
  constructor
  · rw [do_filter_isTerminal]
    rfl
  · simp only [client.CompleteSuccessfulActivity, htok, hmarshal]
    cases h : c.updateActivityResp <;> simp [h]

/-- Concrete witness for C4: a client model whose token fetch and
marshalling succeed. -/
def sampleClientModel : ClientModel Nat :=
  { token := Except.ok "tok",
    startWorkflowResp := Except.ok "wf",
    getWorkflowResp := Except.ok { payload := "" },
    cancelWorkflowResp := Except.ok (),
    signalWorkflowResp := Except.ok (),
    updateActivityResp := Except.ok
      { id := none, status := none, result := "", percentComplete := 0, error := none },
    heartbeatResp := Except.ok
      { taskToken := none, activityID := none, details := "", cancelled := false },
    heartbeatActivityResp := Except.ok
      { taskToken := none, activityID := none, details := "", cancelled := false },
    marshal := fun n => Except.ok (toString n) }

/-- Witness for C4 at a concrete invocation and client model. -/
theorem claim_C4_witness :
    (Worker.Do "wf1" "a1" "tk1"
        { hbEvents := [], progress := [], ev := DoEvent.workOk (5 : Nat) }).filter
        ClientCall.isTerminal
      = [ClientCall.completeSuccessfulActivity "wf1" "a1" 5]
    ∧ (client.CompleteSuccessfulActivity sampleClientModel "wf1" "a1" 5).1
      = [ApiRequest.updateActivity "wf1" "a1"
          { id := some "a1", status := some ActivityStatusCompleted,
            result := "5", percentComplete := 100, error := none }] :=
  claim_C4 "wf1" "a1" "tk1" [] [] 5 sampleClientModel "tok" "5" rfl rfl

/-- The list `List.destutter' (· ≠ ·) a l` always starts with `a`. -/
theorem destutter_ne_head :
    ∀ (l : List Int) (a : Int),
      List.destutter' (fun x y : Int => x ≠ y) a l
        = a :: (List.destutter' (fun x y : Int => x ≠ y) a l).tail
  | [], _ => rfl
  | b :: l, a => by
    rw [List.destutter'_cons]
    by_cases h : a ≠ b
    · rw [if_pos h]
      rfl
    · rw [if_neg h]
      exact destutter_ne_head l a

/-- The progress forwarder run from an arbitrary last value computes the
destuttering of its input relative to that last value. -/
theorem updatePercentCompleteFrom_eq_destutter (α : Type)
    (workflowID activityID : String) :
    ∀ (l : List Int) (last : Int),
      Worker.updatePercentCompleteFrom α workflowID activityID last l
        = ((List.destutter' (fun x y : Int => x ≠ y) last l).tail).map
            (fun p => ClientCall.updateActivityPercentComplete workflowID activityID p)
  | [], _ => rfl
  | v :: rest, last => by
    rw [List.destutter'_cons]
    by_cases h : v = last
    · have hdes : ¬(last ≠ v) := fun hh => hh h.symm
      rw [if_neg hdes]
      have hcode : ¬(v ≠ last) := fun hh => hh h
      simp only [Worker.updatePercentCompleteFrom, if_neg hcode]
      exact updatePercentCompleteFrom_eq_destutter α workflowID activityID rest last
    · have hdes : last ≠ v := fun hh => h hh.symm
      rw [if_pos hdes, List.tail_cons, destutter_ne_head rest v, List.map_cons]
      simp only [Worker.updatePercentCompleteFrom, if_pos h]
      rw [updatePercentCompleteFrom_eq_destutter α workflowID activityID rest v]

/-- C7: starting from the sentinel last value -1, the progress forwarder
forwards exactly the destuttering of the received sequence — a value is
forwarded iff it differs from the immediately preceding forwarded value,
in arrival order; in particular 30, 30, 30 yields one forwarded update
and 30, 60, 100 yields three. -/
theorem claim_C7 (α : Type) (workflowID activityID : String) (l : List Int) :
    Worker.updatePercentComplete α workflowID activityID l
      = ((List.destutter' (fun x y : Int => x ≠ y) (-1) l).tail).map
          (fun p => ClientCall.updateActivityPercentComplete workflowID activityID p)
    ∧ Worker.updatePercentComplete α workflowID activityID [30, 30, 30]
      = [ClientCall.updateActivityPercentComplete workflowID activityID 30]
    ∧ Worker.updatePercentComplete α workflowID activityID [30, 60, 100]
      = [ClientCall.updateActivityPercentComplete workflowID activityID 30,
         ClientCall.updateActivityPercentComplete workflowID activityID 60,
         ClientCall.updateActivityPercentComplete workflowID activityID 100] := by
  refine ⟨updatePercentCompleteFrom_eq_destutter α workflowID activityID l (-1), ?_, ?_⟩
  · rfl
  · rfl

/-- C6: once cancellation is observed, if the work function returns
nothing within the effective grace timeout (which is 1 minute whenever
the configured value is not positive), the worker issues exactly one
cancellation report with the fixed timeout detail message, at the time
the grace timeout elapses — hence no earlier — and without waiting for
the work function (the outcome equals the one where the work function
never returns at all). -/
theorem claim_C6 {α : Type} (w : Worker) (workflowID activityID : String)
    (work : Option (Int × WorkReturn α))
    (h : work = none
      ∨ ∃ t r, work = some (t, r) ∧ w.effCancellationTimeout ≤ t) :
    Worker.handleCancellationTimed w workflowID activityID work
      = ([ClientCall.completeCancelledActivity workflowID activityID cancelledReason
            timeoutErrorMessage], w.effCancellationTimeout)
    ∧ w.effCancellationTimeout
        ≤ (Worker.handleCancellationTimed w workflowID activityID work).2
    ∧ Worker.handleCancellationTimed w workflowID activityID work
        = Worker.handleCancellationTimed w workflowID activityID none
    ∧ (w.cancellationTimeout ≤ 0 → w.effCancellationTimeout = 60000000000)
    ∧ timeoutErrorMessage = "Work cancelled after timeout" := by
  have key : Worker.handleCancellationTimed w workflowID activityID work
      = ([ClientCall.completeCancelledActivity workflowID activityID cancelledReason
            timeoutErrorMessage], w.effCancellationTimeout) := by
    rcases h with rfl | ⟨t, r, rfl, ht⟩
    · rfl
    · simp only [Worker.handleCancellationTimed]
      rw [if_neg (not_lt.mpr ht)]
  refine ⟨key, ?_, ?_, ?_, rfl⟩
  · rw [key]
  · rw [key]
    rfl
  · intro hle
    unfold Worker.effCancellationTimeout
    rw [if_neg (not_lt.mpr hle)]
    rfl

/-- Witness for C6 on a worker with non-positive configured timeout and a
work function that never returns. -/
theorem claim_C6_witness :
    Worker.handleCancellationTimed
        { heartbeatInterval := 0, cancellationTimeout := 0 } "wf1" "a1"
        (none : Option (Int × WorkReturn Nat))
      = ([ClientCall.completeCancelledActivity "wf1" "a1" cancelledReason
            timeoutErrorMessage],
         Worker.effCancellationTimeout
           { heartbeatInterval := 0, cancellationTimeout := 0 })
    ∧ Worker.effCancellationTimeout
          { heartbeatInterval := 0, cancellationTimeout := 0 }
        ≤ (Worker.handleCancellationTimed
            { heartbeatInterval := 0, cancellationTimeout := 0 } "wf1" "a1"
            (none : Option (Int × WorkReturn Nat))).2
    ∧ Worker.handleCancellationTimed
          { heartbeatInterval := 0, cancellationTimeout := 0 } "wf1" "a1"
          (none : Option (Int × WorkReturn Nat))
        = Worker.handleCancellationTimed
            { heartbeatInterval := 0, cancellationTimeout := 0 } "wf1" "a1" none
    ∧ ((0 : Int) ≤ 0 →
        Worker.effCancellationTimeout
            { heartbeatInterval := 0, cancellationTimeout := 0 } = 60000000000)
    ∧ timeoutErrorMessage = "Work cancelled after timeout" :=
  claim_C6 { heartbeatInterval := 0, cancellationTimeout := 0 } "wf1" "a1" none (Or.inl rfl)

/-- The heartbeat loop is insensitive to transport errors: erasing every
error from the event list leaves its behaviour unchanged. -/
theorem heartbeat_eraseErr (α : Type) (taskToken activityID : String) :
    ∀ evs : List HBEvent,
      Worker.heartbeat α taskToken activityID (evs.map HBEvent.eraseErr)
        = Worker.heartbeat α taskToken activityID evs
  | [] => rfl
  | HBEvent.stopSignal :: _ => rfl
  | HBEvent.tick resp e :: rest => by
    simp only [List.map_cons, HBEvent.eraseErr, Worker.heartbeat]
    rw [heartbeat_eraseErr α taskToken activityID rest]

/-- The heartbeat loop returns exactly when the stop channel is
signalled. -/
theorem heartbeat_stopped_iff (α : Type) (taskToken activityID : String) :
    ∀ evs : List HBEvent,
      (Worker.heartbeat α taskToken activityID evs).stopped = true
        ↔ HBEvent.stopSignal ∈ evs
  | [] => by simp [Worker.heartbeat]
  | HBEvent.stopSignal :: rest => by simp [Worker.heartbeat]
  | HBEvent.tick resp e :: rest => by
    simp only [Worker.heartbeat, List.mem_cons]
    rw [heartbeat_stopped_iff α taskToken activityID rest]
    simp

/-- C8: a transport error on a single heartbeat attempt is only logged —
the loop still issues the heartbeat call and continues to the next tick
rather than exiting, its only clean exit is the stop signal, and
transport errors change neither the loop's behaviour nor which terminal
outcome the worker reports. -/
theorem claim_C8 {α : Type} (workflowID activityID taskToken : String)
    (resp : Option Heartbeat) (e : String) (rest evs : List HBEvent)
    (progress : List Int) (ev : DoEvent α) :
    (Worker.heartbeat α taskToken activityID (HBEvent.tick resp (some e) :: rest)).calls
      = ClientCall.heartbeatActivityWithToken taskToken activityID
          (heartbeatDetails activityID)
          :: (Worker.heartbeat α taskToken activityID rest).calls
    ∧ (Worker.heartbeat α taskToken activityID
          (HBEvent.tick resp (some e) :: rest)).stopped
      = (Worker.heartbeat α taskToken activityID rest).stopped
    ∧ Worker.heartbeat α taskToken activityID (evs.map HBEvent.eraseErr)
      = Worker.heartbeat α taskToken activityID evs
    ∧ ((Worker.heartbeat α taskToken activityID evs).stopped = true
        ↔ HBEvent.stopSignal ∈ evs)
    ∧ (Worker.Do workflowID activityID taskToken
          { hbEvents := evs.map HBEvent.eraseErr, progress := progress, ev := ev }).filter
          ClientCall.isTerminal
      = (Worker.Do workflowID activityID taskToken
          { hbEvents := evs, progress := progress, ev := ev }).filter
          ClientCall.isTerminal := by
  refine ⟨rfl, rfl, heartbeat_eraseErr α taskToken activityID evs,
    heartbeat_stopped_iff α taskToken activityID evs, ?_⟩
  rw [do_filter_isTerminal, do_filter_isTerminal]

/-- C9: one heartbeat tick invokes the cancellation trigger exactly when
the returned record is non-nil with its Cancelled flag set, independently
of whether the same call also returned a transport error; a nil record
never triggers it. -/
theorem claim_C9 {α : Type} (taskToken activityID : String)
    (resp : Option Heartbeat) (err : Option String) (rest : List HBEvent) :
    (Worker.heartbeat α taskToken activityID (HBEvent.tick resp err :: rest)).cancelCount
      = (if tickTriggersCancel resp then 1 else 0)
          + (Worker.heartbeat α taskToken activityID rest).cancelCount
    ∧ (tickTriggersCancel resp = true ↔ ∃ hb, resp = some hb ∧ hb.cancelled = true)
    ∧ tickTriggersCancel none = false
    ∧ Worker.heartbeat α taskToken activityID (HBEvent.tick resp err :: rest)
      = Worker.heartbeat α taskToken activityID (HBEvent.tick resp none :: rest) := by
  refine ⟨rfl, ?_, rfl, rfl⟩
  cases resp with
  | none => simp [tickTriggersCancel]
  | some hb => simp [tickTriggersCancel]

/-- C10: every operation of the workflow client fetches the auth token
first; when the token fetcher fails, the operation returns that exact
error with a zero or nil primary result and issues no HTTP request. -/
theorem claim_C10 {α : Type} (c : ClientModel α) (e : String) (pw : PostWorkflow)
    (workflowID activityID taskToken details reason dts : String) (sig : Signal)
    (act : Activity) (percent : Int) (result : α) :
    let cErr : ClientModel α := { c with token := Except.error e }
    client.StartWorkflow cErr pw = ([], "", some e)
    ∧ client.Workflow cErr workflowID = ([], none, some e)
    ∧ client.CancelWorkflow cErr workflowID = ([], some e)
    ∧ client.SignalWorkflow cErr workflowID sig = ([], some e)
    ∧ client.UpdateActivity cErr workflowID act = some ([], none, some e)
    ∧ client.UpdateActivityPercentComplete cErr workflowID activityID percent
        = ([], none, some e)
    ∧ client.CompleteSuccessfulActivity cErr workflowID activityID result
        = ([], none, some e)
    ∧ client.CompleteCancelledActivity cErr workflowID activityID reason dts
        = ([], none, some e)
    ∧ client.CompleteFailedActivity cErr workflowID activityID reason dts
        = ([], none, some e)
    ∧ client.HeartbeatActivity cErr workflowID activityID = ([], none, some e)
    ∧ client.HeartbeatActivityWithToken cErr taskToken activityID details
        = ([], none, some e) :=
  ⟨rfl, rfl, rfl, rfl, rfl, rfl, rfl, rfl, rfl, rfl, rfl⟩

end WorkflowGoclient
